import Mathlib

/-!
Verification development for the TFX CLI engine-abstraction and
state-reconciliation layer, plus the `StringType` value-artifact codec.

The CLI handler layer (EngineResolver, LocalPipelineStateStore,
PipelineHandler, RunHandler) is exercised by the end-to-end test
`tfx/tools/cli/e2e/cli_kubeflow_e2e_test.py`; the handler sources
themselves are not in the source tree, so those components are modelled
from the specification (each such definition is marked
`Modelled from the spec:`).  `StringType.encode` / `StringType.decode`
are embedded directly from `tfx/types/standard_artifacts.py`.
-/

/-- Engine identifiers known to the CLI: the two pluggable orchestration
backends (airflow and kubeflow) that appear in the e2e test and the spec. -/
inductive Engine
  | airflow
  | kubeflow
deriving DecidableEq

/-- Rendering of an engine identifier as it appears in CLI messages. -/
def Engine.render : Engine → String
  | .airflow => "airflow"
  | .kubeflow => "kubeflow"

/-- Engine token passed on the command line with the --engine flag:
either an explicit engine identifier or the token auto. -/
inductive EngineToken
  | auto
  | explicitEngine (e : Engine)
deriving DecidableEq

/-- Modelled from the spec: a pipeline definition file (DSL).  The missing
compiler collaborator derives from it a validity verdict (does the path
resolve to a recognized pipeline definition), the derived pipeline name
(a deterministic function of pipeline content), and the engine whose
runner construct the definition instantiates. -/
structure Definition where
  path : String
  valid : Bool
  name : String
  authoredFor : Engine
deriving DecidableEq

/-- Modelled from the spec: the PipelineRecord persisted by the missing
LocalPipelineStateStore -- name, bound engine, remote identifier and
compiled package path (the pipeline_args.json contents). -/
structure PipelineRecord where
  name : String
  engine : Engine
  remote_id : String
  package_path : String
deriving DecidableEq

/-- Status of a remote run, as reported by the remote engine. -/
inductive RunStatus
  | pending
  | running
  | succeeded
  | failed
  | terminated
deriving DecidableEq

/-- Modelled from the spec: a RunRecord owned by the remote engine (never
persisted locally); `schema` is the downstream schema artifact the run
produced, when it produced one. -/
structure RunRecord where
  run_id : String
  pipeline_name : String
  status : RunStatus
  schema : Option String
deriving DecidableEq

/-- Modelled from the spec: the filesystem-backed local state -- one
PipelineRecord per pipeline name plus the locally cached compiled package
artifacts, addressed by pipeline name. -/
structure LocalStore where
  records : List PipelineRecord
  packages : List String
deriving DecidableEq

/-- Modelled from the spec: the remote engines' authoritative state --
which (engine, pipeline name) pairs are registered, the runs they own,
and a fresh-run-identifier counter. -/
structure RemoteState where
  pipelines : List (Engine × String)
  runs : List RunRecord
  nextRunId : Nat
deriving DecidableEq

/-- The whole world the CLI acts on: the local store and the remote state. -/
structure State where
  store : LocalStore
  remote : RemoteState
deriving DecidableEq

/-- The empty world: fresh workspace, nothing registered remotely. -/
def emptyState : State := ⟨⟨[], []⟩, ⟨[], [], 0⟩⟩

/-- Modelled from the spec: LocalPipelineStateStore.exists, keyed by
pipeline name. -/
def LocalStore.existsRecord (s : LocalStore) (name : String) : Bool :=
  s.records.any (fun r => r.name == name)

/-- Modelled from the spec: LocalPipelineStateStore.save -- creates or
overwrites the record for the given name. -/
def LocalStore.save (s : LocalStore) (r : PipelineRecord) : LocalStore :=
  { s with records := r :: s.records.filter (fun q => q.name != r.name) }

/-- Modelled from the spec: writing the compiled package artifact file for
a pipeline into the workspace. -/
def LocalStore.savePackage (s : LocalStore) (name : String) : LocalStore :=
  { s with packages := name :: s.packages.filter (fun p => p != name) }

/-- Whether a locally cached compiled package artifact exists for the name. -/
def LocalStore.hasPackage (s : LocalStore) (name : String) : Bool :=
  s.packages.any (fun p => p == name)

/-- Modelled from the spec: LocalPipelineStateStore.delete -- removes the
record and any locally cached package artifact for the name. -/
def LocalStore.deleteRecord (s : LocalStore) (name : String) : LocalStore :=
  { records := s.records.filter (fun q => q.name != name),
    packages := s.packages.filter (fun p => p != name) }

/-- Structured result of one CLI command: the outcome rendered to the
user, the world after the command, and how many remote EngineClient
calls the command performed. -/
inductive Outcome
  | created (name : String)
  | alreadyExists (name : String)
  | updated (name : String)
  | deleted (name : String)
  | notFound (name : String)
  | listed (names : List String)
  | compiled
  | invalidDefinition (path : String)
  | engineMismatch (e : Engine)
  | schemaNotReady
  | schemaResult (s : String)
  | runCreated (name : String) (run_id : String)
  | runDeleted
  | runTerminated
  | runStatusIs (r : Option RunRecord)
  | runsListed (rs : List RunRecord)
  | ambiguousEngine
  | noEngineAvailable
  | engineUnavailable (e : Engine)
deriving DecidableEq

/-- Human-readable status line for each outcome, exactly as asserted by
the e2e test on the CLI output. -/
def Outcome.message : Outcome → String
  | .created n => "Pipeline \"" ++ n ++ "\" created successfully."
  | .alreadyExists n => "Pipeline \"" ++ n ++ "\" already exists."
  | .updated n => "Pipeline \"" ++ n ++ "\" updated successfully."
  | .deleted n => "Pipeline " ++ n ++ " deleted successfully."
  | .notFound n => "Pipeline \"" ++ n ++ "\" does not exist."
  | .listed _ => "Listing all pipelines"
  | .compiled => "Pipeline compiled successfully"
  | .invalidDefinition p => "Invalid pipeline path: " ++ p
  | .engineMismatch e => e.render ++ " runner not found in dsl."
  | .schemaNotReady =>
      "Create a run before inferring schema. If pipeline is already running, then wait for it to successfully finish."
  | .schemaResult s => s
  | .runCreated n _ => "Run created for pipeline: " ++ n
  | .runDeleted => "Run deleted."
  | .runTerminated => "Run terminated."
  | .runStatusIs _ => "Retrieving run status."
  | .runsListed _ => "Listing all runs of pipeline"
  | .ambiguousEngine => "Multiple orchestrators found. Choose one using --engine flag."
  | .noEngineAvailable => "Orchestrator missing in the environment."
  | .engineUnavailable e => e.render ++ " is not installed."

/-- Result of one command invocation. -/
structure CmdResult where
  outcome : Outcome
  state : State
  remoteCalls : Nat
deriving DecidableEq

/-- Modelled from the spec: PipelineHandler.compile -- pure validation
plus compilation with no local-state or remote side effects; fails with
InvalidDefinition when the path does not resolve to a recognized pipeline
definition, with EngineMismatch when the definition is authored for a
different engine than the one bound to the handler. -/
def pipelineCompile (e : Engine) (d : Definition) (st : State) : CmdResult :=
  if d.valid then
    if d.authoredFor == e then ⟨.compiled, st, 0⟩
    else ⟨.engineMismatch e, st, 0⟩
  else ⟨.invalidDefinition d.path, st, 0⟩

/-- Modelled from the spec: PipelineHandler.create -- derive the pipeline
name from the definition; precondition that no record exists (violation
reported as already-exists); on the success path compile the package,
register it with the remote engine (one EngineClient call) and only then
save the PipelineRecord and the package artifact locally. -/
def pipelineCreate (e : Engine) (d : Definition) (st : State) : CmdResult :=
  if d.valid then
    if st.store.existsRecord d.name then ⟨.alreadyExists d.name, st, 0⟩
    else if d.authoredFor == e then
      let remote' : RemoteState :=
        { st.remote with pipelines := (e, d.name) :: st.remote.pipelines }
      let rec' : PipelineRecord :=
        ⟨d.name, e, e.render ++ "/" ++ d.name, d.name ++ ".tar.gz"⟩
      ⟨.created d.name, ⟨(st.store.save rec').savePackage d.name, remote'⟩, 1⟩
    else ⟨.engineMismatch e, st, 0⟩
  else ⟨.invalidDefinition d.path, st, 0⟩

/-- Modelled from the spec: PipelineHandler.update -- precondition that
the record exists (violation reported as does-not-exist); on success
recompile, call EngineClient.update and refresh the local record and
package artifact. -/
def pipelineUpdate (e : Engine) (d : Definition) (st : State) : CmdResult :=
  if d.valid then
    if st.store.existsRecord d.name then
      if d.authoredFor == e then
        let rec' : PipelineRecord :=
          ⟨d.name, e, e.render ++ "/" ++ d.name, d.name ++ ".tar.gz"⟩
        ⟨.updated d.name, ⟨(st.store.save rec').savePackage d.name, st.remote⟩, 1⟩
      else ⟨.engineMismatch e, st, 0⟩
    else ⟨.notFound d.name, st, 0⟩
  else ⟨.invalidDefinition d.path, st, 0⟩

/-- Modelled from the spec: PipelineHandler.delete -- precondition that
the record exists (violation reported as does-not-exist); on success call
EngineClient.unregister and only then remove the local record together
with the cached package artifact. -/
def pipelineDelete (e : Engine) (name : String) (st : State) : CmdResult :=
  if st.store.existsRecord name then
    let remote' : RemoteState :=
      { st.remote with pipelines := st.remote.pipelines.filter (fun p => p.2 != name) }
    ⟨.deleted name, ⟨st.store.deleteRecord name, remote'⟩, 1⟩
  else ⟨.notFound name, st, 0⟩

/-- Names of the locally stored pipelines bound to the given engine. -/
def listedNames (e : Engine) (st : State) : List String :=
  (st.store.records.filter (fun r => r.engine == e)).map (fun r => r.name)

/-- Modelled from the spec: PipelineHandler.list -- the locally stored
names filtered to the engine bound to the handler. -/
def pipelineList (e : Engine) (st : State) : CmdResult :=
  ⟨.listed (listedNames e st), st, 0⟩

/-- Whether an outcome reports an inferred schema. -/
def isSchemaResult : Outcome → Bool
  | .schemaResult _ => true
  | _ => false

/-- Modelled from the spec: PipelineHandler.infer_schema -- precondition
chain: the record must exist (else does-not-exist); then a run of this
pipeline must have succeeded AND produced the downstream schema artifact,
the two failure conditions rendering identically as the run-required
message. -/
def inferSchema (e : Engine) (name : String) (st : State) : CmdResult :=
  if st.store.existsRecord name then
    match st.remote.runs.find?
        (fun r => r.pipeline_name == name && r.status == RunStatus.succeeded && r.schema.isSome) with
    | some r => ⟨.schemaResult (r.schema.getD ""), st, 1⟩
    | none => ⟨.schemaNotReady, st, 1⟩
  else ⟨.notFound name, st, 0⟩

/-- Modelled from the spec: RunHandler.create -- precondition that the
pipeline exists locally (else does-not-exist); resolves the remote id and
calls EngineClient.run, which creates a fresh run remotely; no local
state is touched. -/
def createRun (e : Engine) (name : String) (st : State) : CmdResult :=
  if st.store.existsRecord name then
    let rid := "run_" ++ toString st.remote.nextRunId
    let run : RunRecord := ⟨rid, name, RunStatus.pending, none⟩
    ⟨.runCreated name rid,
      ⟨st.store,
        { st.remote with runs := st.remote.runs ++ [run], nextRunId := st.remote.nextRunId + 1 }⟩, 1⟩
  else ⟨.notFound name, st, 0⟩

/-- Modelled from the spec: RunHandler.delete -- direct pass-through to
EngineClient.delete_run; runs are not locally tracked. -/
def deleteRun (e : Engine) (rid : String) (st : State) : CmdResult :=
  ⟨.runDeleted,
    ⟨st.store, { st.remote with runs := st.remote.runs.filter (fun r => r.run_id != rid) }⟩, 1⟩

/-- Modelled from the spec: RunHandler.terminate -- direct pass-through to
EngineClient.terminate_run; runs are not locally tracked. -/
def terminateRun (e : Engine) (rid : String) (st : State) : CmdResult :=
  let mark := fun (r : RunRecord) =>
    if r.run_id == rid then { r with status := RunStatus.terminated } else r
  ⟨.runTerminated, ⟨st.store, { st.remote with runs := st.remote.runs.map mark }⟩, 1⟩

/-- Modelled from the spec: RunHandler.status -- returns the current
RunRecord fetched fresh from the remote engine. -/
def statusRun (e : Engine) (rid : String) (st : State) : CmdResult :=
  ⟨.runStatusIs (st.remote.runs.find? (fun r => r.run_id == rid)), st, 1⟩

/-- Modelled from the spec: RunHandler.list -- all RunRecords of the
pipeline, in the order the remote engine reports them. -/
def listRuns (e : Engine) (name : String) (st : State) : CmdResult :=
  ⟨.runsListed (st.remote.runs.filter (fun r => r.pipeline_name == name)), st, 1⟩

/-- Modelled from the spec: EngineResolver -- an explicit engine is
checked for availability; the token auto resolves to the unique available
engine, failing with NoEngineAvailable on zero and AmbiguousEngine on
more than one. -/
def resolveEngine (available : List Engine) : EngineToken → Except Outcome Engine
  | .explicitEngine e =>
      if available.contains e then .ok e else .error (.engineUnavailable e)
  | .auto =>
      match available with
      | [] => .error .noEngineAvailable
      | [e] => .ok e
      | _ :: _ :: _ => .error .ambiguousEngine

/-- One CLI subcommand with its operation-specific arguments. -/
inductive Cmd
  | pipelineCreateCmd (d : Definition)
  | pipelineUpdateCmd (d : Definition)
  | pipelineDeleteCmd (name : String)
  | pipelineListCmd
  | pipelineCompileCmd (d : Definition)
  | pipelineSchemaCmd (name : String)
  | runCreateCmd (name : String)
  | runDeleteCmd (rid : String)
  | runTerminateCmd (rid : String)
  | runStatusCmd (rid : String)
  | runListCmd (name : String)
deriving DecidableEq

/-- Dispatch of a command to the handler bound to the resolved engine. -/
def dispatch (e : Engine) : Cmd → State → CmdResult
  | .pipelineCreateCmd d => pipelineCreate e d
  | .pipelineUpdateCmd d => pipelineUpdate e d
  | .pipelineDeleteCmd name => pipelineDelete e name
  | .pipelineListCmd => pipelineList e
  | .pipelineCompileCmd d => pipelineCompile e d
  | .pipelineSchemaCmd name => inferSchema e name
  | .runCreateCmd name => createRun e name
  | .runDeleteCmd rid => deleteRun e rid
  | .runTerminateCmd rid => terminateRun e rid
  | .runStatusCmd rid => statusRun e rid
  | .runListCmd name => listRuns e name

/-- Modelled from the spec: full command flow -- resolve the engine token
once, before any handler is built; on resolution failure no handler runs,
the world is untouched and zero remote calls are performed. -/
def runCommand (available : List Engine) (tok : EngineToken) (c : Cmd) (st : State) : CmdResult :=
  match resolveEngine available tok with
  | .ok e => dispatch e c st
  | .error o => ⟨o, st, 0⟩

/-- One step of a command trace: the engines available in the environment
at that invocation, the engine token passed, and the subcommand. -/
structure Step where
  available : List Engine
  token : EngineToken
  cmd : Cmd

/-- Running a sequence of CLI invocations, collecting the outcomes. -/
def runTrace : List Step → State → State × List Outcome
  | [], st => (st, [])
  | s :: rest, st =>
      let r := runCommand s.available s.token s.cmd st
      let rest' := runTrace rest r.state
      (rest'.1, r.outcome :: rest'.2)

/-- Effect of one reported outcome on the question "was pipeline `name`
successfully created and not deleted since": a successful create of the
name sets it, a successful delete of the name clears it, every other
outcome leaves it alone. -/
def recordEvent (name : String) (b : Bool) (o : Outcome) : Bool :=
  match o with
  | Outcome.created n => if n == name then true else b
  | Outcome.deleted n => if n == name then false else b
  | _ => b

/-- Folding a list of outcomes to decide whether, starting from a given
existence flag, some create of the name succeeded with no later
successful delete of it. -/
def activeAfter (name : String) (outs : List Outcome) (init : Bool) : Bool :=
  outs.foldl (recordEvent name) init

/-- Unicode scalar value: a code point below 0x110000 that is not a
surrogate.  These are exactly the characters a well-formed unicode string
is made of. -/
def isUnicodeScalar (c : Nat) : Prop :=
  c < 1114112 ∧ (c < 55296 ∨ 57344 ≤ c)

instance (c : Nat) : Decidable (isUnicodeScalar c) :=
  inferInstanceAs (Decidable (c < 1114112 ∧ (c < 55296 ∨ 57344 ≤ c)))

/-- UTF-8 encoding of one unicode scalar value as its byte sequence
(1 to 4 bytes depending on the range). -/
def utf8EncodeChar (c : Nat) : List Nat :=
  if c < 128 then [c]
  else if c < 2048 then [192 + c / 64, 128 + c % 64]
  else if c < 65536 then [224 + c / 4096, 128 + c / 64 % 64, 128 + c % 64]
  else [240 + c / 262144, 128 + c / 4096 % 64, 128 + c / 64 % 64, 128 + c % 64]

/-- Strict UTF-8 decoding loop: turns a byte sequence back into the
sequence of unicode scalar values it encodes, rejecting continuation
errors, overlong forms, surrogates and out-of-range values, as the strict
codec underlying `bytes.decode` does.  `need` counts the continuation
bytes still expected (0 meaning a leading byte comes next), `acc` holds
the scalar value assembled so far and `lo` the smallest value the current
multi-byte form is allowed to encode. -/
def utf8DecodeLoop : List Nat → Nat → Nat → Nat → Option (List Nat)
  | [], need, _, _ => if need = 0 then some [] else none
  | b :: rest, 0, _, _ =>
      if b < 128 then (utf8DecodeLoop rest 0 0 0).map (fun cs => b :: cs)
      else if b < 192 then none
      else if b < 224 then utf8DecodeLoop rest 1 (b - 192) 128
      else if b < 240 then utf8DecodeLoop rest 2 (b - 224) 2048
      else if b < 248 then utf8DecodeLoop rest 3 (b - 240) 65536
      else none
  | b :: rest, need + 1, acc, lo =>
      if 128 ≤ b ∧ b < 192 then
        if need = 0 then
          if lo ≤ acc * 64 + (b - 128) ∧ acc * 64 + (b - 128) < 1114112 ∧
              (acc * 64 + (b - 128) < 55296 ∨ 57344 ≤ acc * 64 + (b - 128)) then
            (utf8DecodeLoop rest 0 0 0).map (fun cs => (acc * 64 + (b - 128)) :: cs)
          else none
        else utf8DecodeLoop rest need (acc * 64 + (b - 128)) lo
      else none

/-- Strict UTF-8 decoder on a whole byte sequence. -/
def utf8Decode (value : List Nat) : Option (List Nat) :=
  utf8DecodeLoop value 0 0 0

/-- Embedded from `tfx/types/standard_artifacts.py`: `StringType.encode`
is `value.encode` with the utf-8 codec -- the UTF-8 byte encoding of the
string, here represented as the sequence of its unicode scalar values. -/
def StringType.encode (value : List Nat) : List Nat :=
  (value.map utf8EncodeChar).flatten

/-- Embedded from `tfx/types/standard_artifacts.py`: `StringType.decode`
is `value.decode` with the utf-8 codec on the byte sequence, which fails
on byte sequences that are not valid UTF-8. -/
def StringType.decode (value : List Nat) : Option (List Nat) :=
  utf8Decode value

/-- Sample pipeline definition mirroring `test_pipeline_kubeflow_1.py`
from the e2e testdata. -/
def defKubeflow1 : Definition :=
  ⟨"test_pipeline_kubeflow_1.py", true, "chicago_taxi_pipeline_kubeflow", Engine.kubeflow⟩

/-- Sample pipeline definition mirroring `test_pipeline_kubeflow_3.py`
from the e2e testdata. -/
def defKubeflow3 : Definition :=
  ⟨"test_pipeline_kubeflow_3.py", true, "chicago_taxi_pipeline_kubeflow_v2", Engine.kubeflow⟩

/-- Sample pipeline definition mirroring `test_pipeline_airflow_1.py`
from the e2e testdata: a valid DSL authored for the airflow engine. -/
def defAirflow1 : Definition :=
  ⟨"test_pipeline_airflow_1.py", true, "chicago_taxi_simple", Engine.airflow⟩

/-- Sample path mirroring `test_pipeline_flink.py` from the e2e testdata:
a path that does not resolve to a recognized pipeline definition. -/
def defFlink : Definition :=
  ⟨"test_pipeline_flink.py", false, "test_pipeline_flink", Engine.kubeflow⟩

/-- Sample state for schema gating: the v2 pipeline recorded locally with
no runs at the remote engine. -/
def schemaStateNoRun : State :=
  ⟨⟨[⟨"chicago_taxi_pipeline_kubeflow_v2", Engine.kubeflow, "kubeflow/chicago_taxi_pipeline_kubeflow_v2",
      "chicago_taxi_pipeline_kubeflow_v2.tar.gz"⟩], ["chicago_taxi_pipeline_kubeflow_v2"]⟩,
   ⟨[(Engine.kubeflow, "chicago_taxi_pipeline_kubeflow_v2")], [], 0⟩⟩

/-- Sample state for schema gating: a succeeded run that produced no
downstream schema artifact. -/
def schemaStateNoArtifact : State :=
  ⟨schemaStateNoRun.store,
   ⟨schemaStateNoRun.remote.pipelines,
    [⟨"run_0", "chicago_taxi_pipeline_kubeflow_v2", RunStatus.succeeded, none⟩], 1⟩⟩

/-- Sample state for schema gating: a succeeded run whose downstream
schema artifact is present. -/
def schemaStateReady : State :=
  ⟨schemaStateNoRun.store,
   ⟨schemaStateNoRun.remote.pipelines,
    [⟨"run_0", "chicago_taxi_pipeline_kubeflow_v2", RunStatus.succeeded, some "schema_uri"⟩], 1⟩⟩

/-! ## Store lemmas -/

/-- Filtering out records of one name does not change whether a record of
a different name is present. -/
theorem any_name_filter_ne (l : List PipelineRecord) (x m : String) (h : x ≠ m) :
    (l.filter (fun q => q.name != x)).any (fun q => q.name == m)
      = l.any (fun q => q.name == m) := by
  rw [Bool.eq_iff_iff]
  simp only [List.any_eq_true, List.mem_filter, bne_iff_ne, beq_iff_eq]
  constructor
  · rintro ⟨q, ⟨hq, _⟩, hm⟩
    exact ⟨q, hq, hm⟩
  · rintro ⟨q, hq, hm⟩
    exact ⟨q, ⟨hq, fun he => h (hm ▸ he).symm⟩, hm⟩

/-- Saving a record makes exactly its own name exist, keeping the others. -/
theorem existsRecord_save (s : LocalStore) (r : PipelineRecord) (m : String) :
    (s.save r).existsRecord m = (r.name == m || s.existsRecord m) := by
  unfold LocalStore.save LocalStore.existsRecord
  simp only [List.any_cons]
  cases hr : r.name == m
  · simp only [Bool.false_or]
    exact any_name_filter_ne s.records r.name m (by simpa using hr)
  · simp

/-- Writing a package artifact does not touch the records. -/
theorem existsRecord_savePackage (s : LocalStore) (n m : String) :
    (s.savePackage n).existsRecord m = s.existsRecord m := rfl

/-- Deleting a record removes exactly its own name, keeping the others. -/
theorem existsRecord_deleteRecord (s : LocalStore) (n m : String) :
    (s.deleteRecord n).existsRecord m = if n == m then false else s.existsRecord m := by
  unfold LocalStore.deleteRecord LocalStore.existsRecord
  cases hn : n == m
  · rw [if_neg (by simp)]
    exact any_name_filter_ne s.records n m (by simpa using hn)
  · rw [if_pos rfl, List.any_eq_false]
    intro q hq
    rw [List.mem_filter] at hq
    have hne : q.name ≠ n := bne_iff_ne.mp hq.2
    have : n = m := by simpa using hn
    simpa [this] using hne

/-- Deleting a record removes its cached package artifact. -/
theorem hasPackage_deleteRecord_self (s : LocalStore) (n : String) :
    (s.deleteRecord n).hasPackage n = false := by
  unfold LocalStore.deleteRecord LocalStore.hasPackage
  rw [List.any_eq_false]
  intro p hp
  rw [List.mem_filter] at hp
  simpa using bne_iff_ne.mp hp.2

/-- Characterization of a successful pipeline create: remote registration
prepended and the record plus package artifact saved locally. -/
theorem pipelineCreate_success (e : Engine) (d : Definition) (st : State)
    (hv : d.valid = true) (he : d.authoredFor = e)
    (h : st.store.existsRecord d.name = false) :
    pipelineCreate e d st =
      ⟨Outcome.created d.name,
        ⟨(st.store.save ⟨d.name, e, e.render ++ "/" ++ d.name, d.name ++ ".tar.gz"⟩).savePackage d.name,
          { st.remote with pipelines := (e, d.name) :: st.remote.pipelines }⟩, 1⟩ := by
  unfold pipelineCreate
  simp [hv, he, h]

/-- After a successful create, the created name exists locally. -/
theorem existsRecord_after_create (e : Engine) (d : Definition) (st : State)
    (hv : d.valid = true) (he : d.authoredFor = e)
    (h : st.store.existsRecord d.name = false) :
    ((pipelineCreate e d st).state).store.existsRecord d.name = true := by
  rw [pipelineCreate_success e d st hv he h]
  simp [existsRecord_savePackage, existsRecord_save]

/-- Effect of one dispatched command on local existence of a name: a
successful create of that name sets it, a successful delete of that name
clears it, every other outcome leaves it unchanged. -/
theorem existsRecord_dispatch (e : Engine) (c : Cmd) (st : State) (name : String) :
    ((dispatch e c st).state).store.existsRecord name
      = recordEvent name (st.store.existsRecord name) (dispatch e c st).outcome := by
  cases c with
  | pipelineCreateCmd d =>
    unfold dispatch pipelineCreate
    cases hv : d.valid
    · simp [hv, recordEvent]
    · cases hex : st.store.existsRecord d.name
      · by_cases hau : d.authoredFor = e
        · simp only [hv, hex, hau, if_true, Bool.false_eq_true, if_false, beq_self_eq_true]
          simp only [recordEvent]
          rw [existsRecord_savePackage, existsRecord_save]
          cases hn : d.name == name
          · simp [hn]
          · simp [hn]
        · simp [hv, hex, hau, recordEvent]
      · simp [hv, hex, recordEvent]
  | pipelineUpdateCmd d =>
    unfold dispatch pipelineUpdate
    cases hv : d.valid
    · simp [hv, recordEvent]
    · cases hex : st.store.existsRecord d.name
      · simp [hv, hex, recordEvent]
      · by_cases hau : d.authoredFor = e
        · simp only [hv, hex, hau, if_true, beq_self_eq_true]
          simp only [recordEvent]
          rw [existsRecord_savePackage, existsRecord_save]
          cases hn : d.name == name
          · simp [hn]
          · have hdn : d.name = name := by simpa using hn
            rw [← hdn, hex]
            simp
        · simp [hv, hex, hau, recordEvent]
  | pipelineDeleteCmd n =>
    unfold dispatch pipelineDelete
    cases hex : st.store.existsRecord n
    · simp [hex, recordEvent]
    · simp only [hex, if_true]
      simp only [recordEvent]
      rw [existsRecord_deleteRecord]
  | pipelineListCmd => rfl
  | pipelineCompileCmd d =>
    unfold dispatch pipelineCompile
    cases hv : d.valid
    · simp [hv, recordEvent]
    · by_cases hau : d.authoredFor = e <;> simp [hv, hau, recordEvent]
  | pipelineSchemaCmd n =>
    unfold dispatch inferSchema
    cases hex : st.store.existsRecord n
    · simp [hex, recordEvent]
    · simp only [hex, if_true]
      cases hfind : st.remote.runs.find?
          (fun r => r.pipeline_name == n && r.status == RunStatus.succeeded && r.schema.isSome) <;>
        simp [hfind, recordEvent]
  | runCreateCmd n =>
    unfold dispatch createRun
    cases hex : st.store.existsRecord n <;> simp [hex, recordEvent]
  | runDeleteCmd rid => rfl
  | runTerminateCmd rid => rfl
  | runStatusCmd rid => rfl
  | runListCmd n => rfl

/-- Engine resolution failures are resolution outcomes, never create or
delete reports. -/
theorem resolveEngine_error_cases (a : List Engine) (tok : EngineToken) (o : Outcome)
    (h : resolveEngine a tok = .error o) :
    o = Outcome.noEngineAvailable ∨ o = Outcome.ambiguousEngine ∨
      ∃ e, o = Outcome.engineUnavailable e := by
  cases tok with
  | auto =>
    match a with
    | [] => left; cases h; rfl
    | [e] => cases h
    | e1 :: e2 :: rest => right; left; cases h; rfl
  | explicitEngine e =>
    simp only [resolveEngine] at h
    by_cases hc : a.contains e = true
    · rw [if_pos hc] at h; cases h
    · rw [if_neg hc] at h
      right; right; exact ⟨e, by cases h; rfl⟩

/-- Effect of one full command invocation on local existence of a name. -/
theorem existsRecord_runCommand (a : List Engine) (tok : EngineToken) (c : Cmd)
    (st : State) (name : String) :
    ((runCommand a tok c st).state).store.existsRecord name
      = recordEvent name (st.store.existsRecord name) (runCommand a tok c st).outcome := by
  unfold runCommand
  cases h : resolveEngine a tok with
  | ok e => exact existsRecord_dispatch e c st name
  | error o =>
    rcases resolveEngine_error_cases a tok o h with ho | ho | ⟨e, ho⟩ <;> subst ho <;> rfl

/-- Local existence of a name after a trace equals the outcome fold
started from its existence before the trace. -/
theorem existsRecord_runTrace (steps : List Step) (st : State) (name : String) :
    ((runTrace steps st).1).store.existsRecord name
      = activeAfter name (runTrace steps st).2 (st.store.existsRecord name) := by
  induction steps generalizing st with
  | nil => rfl
  | cons s rest ih =>
    show ((runTrace rest _).1).store.existsRecord name = _
    rw [ih]
    unfold activeAfter
    rw [show (runTrace (s :: rest) st).2
        = (runCommand s.available s.token s.cmd st).outcome :: (runTrace rest (runCommand s.available s.token s.cmd st).state).2 from rfl]
    rw [List.foldl_cons, existsRecord_runCommand]

/-! ## Claim theorems -/

/-- C1: for every sequence of pipeline lifecycle commands, a local
PipelineRecord for a name exists after the sequence if and only if a
`pipeline create` for that name succeeded and no subsequent
`pipeline delete` for that name succeeded (folding the reported outcomes
from an initially empty workspace). -/
theorem c1_record_iff_created_not_deleted (steps : List Step) (name : String) :
    ((runTrace steps emptyState).1).store.existsRecord name
      = activeAfter name ((runTrace steps emptyState).2) false :=
  existsRecord_runTrace steps emptyState name

/-- C2: creating the same pipeline definition twice yields a
created-successfully outcome first and an already-exists outcome second,
and the state after both invocations equals the state after the first
invocation alone. -/
theorem c2_duplicate_create (e : Engine) (d : Definition) (st : State)
    (hv : d.valid = true) (he : d.authoredFor = e)
    (h : st.store.existsRecord d.name = false) :
    (pipelineCreate e d st).outcome = Outcome.created d.name ∧
    ((pipelineCreate e d st).outcome).message
      = "Pipeline \"" ++ d.name ++ "\" created successfully." ∧
    (pipelineCreate e d (pipelineCreate e d st).state).outcome
      = Outcome.alreadyExists d.name ∧
    ((pipelineCreate e d (pipelineCreate e d st).state).outcome).message
      = "Pipeline \"" ++ d.name ++ "\" already exists." ∧
    (pipelineCreate e d (pipelineCreate e d st).state).state
      = (pipelineCreate e d st).state := by
  have h1 := pipelineCreate_success e d st hv he h
  have h2 : ((pipelineCreate e d st).state).store.existsRecord d.name = true :=
    existsRecord_after_create e d st hv he h
  have h3 : ∀ st1 : State, st1.store.existsRecord d.name = true →
      pipelineCreate e d st1 = ⟨Outcome.alreadyExists d.name, st1, 0⟩ := by
    intro st1 hex
    unfold pipelineCreate
    simp [hv, hex]
  rw [h3 _ h2, h1]
  exact ⟨rfl, rfl, rfl, rfl, rfl⟩

/-- C2 witness: duplicate create of the kubeflow chicago-taxi pipeline on
a fresh workspace. -/
theorem c2_duplicate_create_witness :
    (pipelineCreate Engine.kubeflow defKubeflow1 emptyState).outcome
      = Outcome.created defKubeflow1.name ∧
    ((pipelineCreate Engine.kubeflow defKubeflow1 emptyState).outcome).message
      = "Pipeline \"" ++ defKubeflow1.name ++ "\" created successfully." ∧
    (pipelineCreate Engine.kubeflow defKubeflow1
        (pipelineCreate Engine.kubeflow defKubeflow1 emptyState).state).outcome
      = Outcome.alreadyExists defKubeflow1.name ∧
    ((pipelineCreate Engine.kubeflow defKubeflow1
        (pipelineCreate Engine.kubeflow defKubeflow1 emptyState).state).outcome).message
      = "Pipeline \"" ++ defKubeflow1.name ++ "\" already exists." ∧
    (pipelineCreate Engine.kubeflow defKubeflow1
        (pipelineCreate Engine.kubeflow defKubeflow1 emptyState).state).state
      = (pipelineCreate Engine.kubeflow defKubeflow1 emptyState).state :=
  c2_duplicate_create Engine.kubeflow defKubeflow1 emptyState rfl rfl rfl

/-- C3: update, delete, run create and schema on a pipeline name with no
local record all fail with the does-not-exist outcome, perform no remote
call and leave the whole state unchanged; the outcome renders as the
PipelineNotFound message. -/
theorem c3_nonexistent_ops (e : Engine) (name : String) (d : Definition) (st : State)
    (hd : d.name = name) (hv : d.valid = true)
    (h : st.store.existsRecord name = false) :
    pipelineUpdate e d st = ⟨Outcome.notFound name, st, 0⟩ ∧
    pipelineDelete e name st = ⟨Outcome.notFound name, st, 0⟩ ∧
    createRun e name st = ⟨Outcome.notFound name, st, 0⟩ ∧
    inferSchema e name st = ⟨Outcome.notFound name, st, 0⟩ ∧
    (Outcome.notFound name).message
      = "Pipeline \"" ++ name ++ "\" does not exist." := by
  subst hd
  refine ⟨?_, ?_, ?_, ?_, rfl⟩
  · unfold pipelineUpdate; simp [hv, h]
  · unfold pipelineDelete; simp [h]
  · unfold createRun; simp [h]
  · unfold inferSchema; simp [h]

/-- C3 witness: the four operations against a fresh workspace that has
never recorded the chicago-taxi pipeline. -/
theorem c3_nonexistent_ops_witness :
    pipelineUpdate Engine.kubeflow defKubeflow1 emptyState
      = ⟨Outcome.notFound "chicago_taxi_pipeline_kubeflow", emptyState, 0⟩ ∧
    pipelineDelete Engine.kubeflow "chicago_taxi_pipeline_kubeflow" emptyState
      = ⟨Outcome.notFound "chicago_taxi_pipeline_kubeflow", emptyState, 0⟩ ∧
    createRun Engine.kubeflow "chicago_taxi_pipeline_kubeflow" emptyState
      = ⟨Outcome.notFound "chicago_taxi_pipeline_kubeflow", emptyState, 0⟩ ∧
    inferSchema Engine.kubeflow "chicago_taxi_pipeline_kubeflow" emptyState
      = ⟨Outcome.notFound "chicago_taxi_pipeline_kubeflow", emptyState, 0⟩ ∧
    (Outcome.notFound "chicago_taxi_pipeline_kubeflow").message
      = "Pipeline \"chicago_taxi_pipeline_kubeflow\" does not exist." :=
  c3_nonexistent_ops Engine.kubeflow "chicago_taxi_pipeline_kubeflow" defKubeflow1
    emptyState rfl rfl rfl

/-- C4: with engine token auto, more than one available engine makes
every command fail with AmbiguousEngine (rendered as the
multiple-orchestrators message) with the state untouched and zero remote
EngineClient calls, while exactly one available engine makes the command
behave identically to naming that engine explicitly. -/
theorem c4_auto_engine_resolution (available : List Engine) (c : Cmd) (st : State) :
    (2 ≤ available.length →
      runCommand available EngineToken.auto c st = ⟨Outcome.ambiguousEngine, st, 0⟩ ∧
      Outcome.ambiguousEngine.message
        = "Multiple orchestrators found. Choose one using --engine flag.") ∧
    (∀ e : Engine, runCommand [e] EngineToken.auto c st
        = runCommand [e] (EngineToken.explicitEngine e) c st) := by
  constructor
  · intro h
    match available, h with
    | e1 :: e2 :: rest, _ => exact ⟨rfl, rfl⟩
  · intro e
    unfold runCommand
    have h1 : resolveEngine [e] EngineToken.auto = Except.ok e := rfl
    have h2 : resolveEngine [e] (EngineToken.explicitEngine e) = Except.ok e := by
      simp [resolveEngine]
    rw [h1, h2]

/-- C4 witness: with both airflow and kubeflow installed the auto token
fails ambiguously on a pipeline create; with only kubeflow installed the
auto token behaves as the explicit kubeflow engine. -/
theorem c4_auto_engine_resolution_witness :
    runCommand [Engine.airflow, Engine.kubeflow] EngineToken.auto
        (Cmd.pipelineCreateCmd defKubeflow1) emptyState
      = ⟨Outcome.ambiguousEngine, emptyState, 0⟩ ∧
    runCommand [Engine.kubeflow] EngineToken.auto
        (Cmd.pipelineCreateCmd defKubeflow1) emptyState
      = runCommand [Engine.kubeflow] (EngineToken.explicitEngine Engine.kubeflow)
          (Cmd.pipelineCreateCmd defKubeflow1) emptyState :=
  ⟨((c4_auto_engine_resolution [Engine.airflow, Engine.kubeflow]
      (Cmd.pipelineCreateCmd defKubeflow1) emptyState).1 (by decide)).1,
   (c4_auto_engine_resolution [Engine.kubeflow]
      (Cmd.pipelineCreateCmd defKubeflow1) emptyState).2 Engine.kubeflow⟩

/-- C8: every run-level operation leaves the local pipeline state store
(records and package artifacts) unchanged; run data only ever lives in
the remote state. -/
theorem c8_run_ops_local_frame (e : Engine) (name rid : String) (st : State) :
    (createRun e name st).state.store = st.store ∧
    (deleteRun e rid st).state.store = st.store ∧
    (terminateRun e rid st).state.store = st.store ∧
    (statusRun e rid st).state.store = st.store ∧
    (listRuns e name st).state.store = st.store := by
  refine ⟨?_, rfl, rfl, rfl, rfl⟩
  unfold createRun
  cases h : st.store.existsRecord name <;> simp [h]

/-- C9: pipeline compile touches neither the local state nor the remote
engine, fails with InvalidDefinition on an unrecognized definition, with
EngineMismatch on a definition authored for another engine, and reports
successful compilation otherwise. -/
theorem c9_compile_pure (e : Engine) (d : Definition) (st : State) :
    (pipelineCompile e d st).state = st ∧
    (pipelineCompile e d st).remoteCalls = 0 ∧
    (d.valid = false →
      (pipelineCompile e d st).outcome = Outcome.invalidDefinition d.path) ∧
    (d.valid = true → d.authoredFor ≠ e →
      (pipelineCompile e d st).outcome = Outcome.engineMismatch e) ∧
    (d.valid = true → d.authoredFor = e →
      (pipelineCompile e d st).outcome = Outcome.compiled) := by
  unfold pipelineCompile
  refine ⟨?_, ?_, ?_, ?_, ?_⟩
  · cases hv : d.valid
    · simp [hv]
    · by_cases hau : d.authoredFor = e <;> simp [hv, hau]
  · cases hv : d.valid
    · simp [hv]
    · by_cases hau : d.authoredFor = e <;> simp [hv, hau]
  · intro hv; simp [hv]
  · intro hv hau; simp [hv, hau]
  · intro hv hau; simp [hv, hau]

/-- C9 witness: the flink path is rejected as invalid, the airflow DSL is
rejected as an engine mismatch, the kubeflow DSL compiles, all three with
the state unchanged. -/
theorem c9_compile_pure_witness :
    (pipelineCompile Engine.kubeflow defFlink emptyState).outcome
      = Outcome.invalidDefinition defFlink.path ∧
    (pipelineCompile Engine.kubeflow defAirflow1 emptyState).outcome
      = Outcome.engineMismatch Engine.kubeflow ∧
    (pipelineCompile Engine.kubeflow defKubeflow1 emptyState).outcome
      = Outcome.compiled ∧
    (pipelineCompile Engine.kubeflow defKubeflow1 emptyState).state = emptyState :=
  ⟨(c9_compile_pure Engine.kubeflow defFlink emptyState).2.2.1 rfl,
   (c9_compile_pure Engine.kubeflow defAirflow1 emptyState).2.2.2.1 rfl (by decide),
   (c9_compile_pure Engine.kubeflow defKubeflow1 emptyState).2.2.2.2 rfl rfl,
   (c9_compile_pure Engine.kubeflow defKubeflow1 emptyState).1⟩

/-- Deleting an existing pipeline: remote unregistration first, then
removal of the local record and cached package artifact. -/
theorem pipelineDelete_success (e : Engine) (name : String) (st : State)
    (hex : st.store.existsRecord name = true) :
    pipelineDelete e name st =
      ⟨Outcome.deleted name,
        ⟨st.store.deleteRecord name,
          { st.remote with pipelines := st.remote.pipelines.filter (fun p => p.2 != name) }⟩, 1⟩ := by
  unfold pipelineDelete
  simp [hex]

/-- Deleting an absent pipeline reports not-found and changes nothing. -/
theorem pipelineDelete_notFound (e : Engine) (name : String) (st : State)
    (hex : st.store.existsRecord name = false) :
    pipelineDelete e name st = ⟨Outcome.notFound name, st, 0⟩ := by
  unfold pipelineDelete
  simp [hex]

/-- C6: create(P) then delete(P) reports successful deletion, leaves the
local existence check false, removes the locally cached package artifact,
and a subsequent delete(P) fails with the not-found outcome. -/
theorem c6_delete_round_trip (e : Engine) (d : Definition) (st : State)
    (hv : d.valid = true) (he : d.authoredFor = e)
    (h : st.store.existsRecord d.name = false) :
    (pipelineDelete e d.name (pipelineCreate e d st).state).outcome
      = Outcome.deleted d.name ∧
    ((pipelineDelete e d.name (pipelineCreate e d st).state).state).store.existsRecord d.name
      = false ∧
    ((pipelineDelete e d.name (pipelineCreate e d st).state).state).store.hasPackage d.name
      = false ∧
    (pipelineDelete e d.name
        (pipelineDelete e d.name (pipelineCreate e d st).state).state).outcome
      = Outcome.notFound d.name := by
  have h2 : ((pipelineCreate e d st).state).store.existsRecord d.name = true :=
    existsRecord_after_create e d st hv he h
  have hdel := pipelineDelete_success e d.name (pipelineCreate e d st).state h2
  have hex2 : ((pipelineDelete e d.name (pipelineCreate e d st).state).state).store.existsRecord d.name
      = false := by
    rw [hdel]
    show (((pipelineCreate e d st).state).store.deleteRecord d.name).existsRecord d.name = false
    rw [existsRecord_deleteRecord]
    simp
  refine ⟨by rw [hdel], hex2, ?_, ?_⟩
  · rw [hdel]
    exact hasPackage_deleteRecord_self _ _
  · rw [pipelineDelete_notFound e d.name _ hex2]

/-- C6 witness: round trip of the kubeflow chicago-taxi pipeline on a
fresh workspace. -/
theorem c6_delete_round_trip_witness :
    (pipelineDelete Engine.kubeflow defKubeflow1.name
        (pipelineCreate Engine.kubeflow defKubeflow1 emptyState).state).outcome
      = Outcome.deleted defKubeflow1.name ∧
    ((pipelineDelete Engine.kubeflow defKubeflow1.name
        (pipelineCreate Engine.kubeflow defKubeflow1 emptyState).state).state).store.existsRecord
        defKubeflow1.name = false ∧
    ((pipelineDelete Engine.kubeflow defKubeflow1.name
        (pipelineCreate Engine.kubeflow defKubeflow1 emptyState).state).state).store.hasPackage
        defKubeflow1.name = false ∧
    (pipelineDelete Engine.kubeflow defKubeflow1.name
        (pipelineDelete Engine.kubeflow defKubeflow1.name
          (pipelineCreate Engine.kubeflow defKubeflow1 emptyState).state).state).outcome
      = Outcome.notFound defKubeflow1.name :=
  c6_delete_round_trip Engine.kubeflow defKubeflow1 emptyState rfl rfl rfl

/-- C7: after creating two pipelines under one engine and a third under a
different engine, listing scoped to the first engine contains exactly the
two names (order-independent) and excludes the third. -/
theorem c7_list_completeness (e e' : Engine) (d1 d2 d3 : Definition)
    (hv1 : d1.valid = true) (he1 : d1.authoredFor = e)
    (hv2 : d2.valid = true) (he2 : d2.authoredFor = e)
    (hv3 : d3.valid = true) (he3 : d3.authoredFor = e')
    (hee : e' ≠ e)
    (h12 : d1.name ≠ d2.name) (h13 : d1.name ≠ d3.name) (h23 : d2.name ≠ d3.name) :
    (pipelineList e (pipelineCreate e' d3 (pipelineCreate e d2
        (pipelineCreate e d1 emptyState).state).state).state).outcome
      = Outcome.listed (listedNames e (pipelineCreate e' d3 (pipelineCreate e d2
        (pipelineCreate e d1 emptyState).state).state).state) ∧
    (∀ n, n ∈ listedNames e (pipelineCreate e' d3 (pipelineCreate e d2
        (pipelineCreate e d1 emptyState).state).state).state
      ↔ (n = d1.name ∨ n = d2.name)) ∧
    d3.name ∉ listedNames e (pipelineCreate e' d3 (pipelineCreate e d2
        (pipelineCreate e d1 emptyState).state).state).state := by
  have b12 : (d1.name != d2.name) = true := bne_iff_ne.mpr h12
  have b13 : (d1.name != d3.name) = true := bne_iff_ne.mpr h13
  have b23 : (d2.name != d3.name) = true := bne_iff_ne.mpr h23
  have e1 : (pipelineCreate e d1 emptyState).state
      = ⟨⟨[⟨d1.name, e, e.render ++ "/" ++ d1.name, d1.name ++ ".tar.gz"⟩], [d1.name]⟩,
         ⟨[(e, d1.name)], [], 0⟩⟩ := by
    rw [pipelineCreate_success e d1 emptyState hv1 he1 rfl]
    rfl
  have hex2 : ((pipelineCreate e d1 emptyState).state).store.existsRecord d2.name = false := by
    rw [e1]
    simp [LocalStore.existsRecord, h12]
  have e2 : (pipelineCreate e d2 (pipelineCreate e d1 emptyState).state).state
      = ⟨⟨[⟨d2.name, e, e.render ++ "/" ++ d2.name, d2.name ++ ".tar.gz"⟩,
           ⟨d1.name, e, e.render ++ "/" ++ d1.name, d1.name ++ ".tar.gz"⟩],
          [d2.name, d1.name]⟩,
         ⟨[(e, d2.name), (e, d1.name)], [], 0⟩⟩ := by
    rw [pipelineCreate_success e d2 _ hv2 he2 hex2, e1]
    simp [LocalStore.save, LocalStore.savePackage, List.filter_cons, b12]
  have hex3 : ((pipelineCreate e d2 (pipelineCreate e d1 emptyState).state).state).store.existsRecord d3.name
      = false := by
    rw [e2]
    simp [LocalStore.existsRecord, h13, h23]
  have e3 : (pipelineCreate e' d3 (pipelineCreate e d2
      (pipelineCreate e d1 emptyState).state).state).state
      = ⟨⟨[⟨d3.name, e', e'.render ++ "/" ++ d3.name, d3.name ++ ".tar.gz"⟩,
           ⟨d2.name, e, e.render ++ "/" ++ d2.name, d2.name ++ ".tar.gz"⟩,
           ⟨d1.name, e, e.render ++ "/" ++ d1.name, d1.name ++ ".tar.gz"⟩],
          [d3.name, d2.name, d1.name]⟩,
         ⟨[(e', d3.name), (e, d2.name), (e, d1.name)], [], 0⟩⟩ := by
    rw [pipelineCreate_success e' d3 _ hv3 he3 hex3, e2]
    simp [LocalStore.save, LocalStore.savePackage, List.filter_cons, b13, b23]
  have hnames : listedNames e (pipelineCreate e' d3 (pipelineCreate e d2
      (pipelineCreate e d1 emptyState).state).state).state = [d2.name, d1.name] := by
    rw [e3]
    simp [listedNames, List.filter_cons, hee]
  refine ⟨rfl, ?_, ?_⟩
  · intro n
    rw [hnames]
    simp [List.mem_cons]
    constructor
    · rintro (hn | hn) <;> [exact Or.inr hn; exact Or.inl hn]
    · rintro (hn | hn) <;> [exact Or.inr hn; exact Or.inl hn]
  · rw [hnames]
    intro hmem
    simp [List.mem_cons] at hmem
    rcases hmem with hh | hh
    · exact h23 hh.symm
    · exact h13 hh.symm

/-- C7 witness: two kubeflow pipelines and one airflow pipeline on a
fresh workspace; the kubeflow-scoped list holds exactly the kubeflow
names. -/
theorem c7_list_completeness_witness :
    (pipelineList Engine.kubeflow (pipelineCreate Engine.airflow defAirflow1
        (pipelineCreate Engine.kubeflow defKubeflow3
          (pipelineCreate Engine.kubeflow defKubeflow1 emptyState).state).state).state).outcome
      = Outcome.listed (listedNames Engine.kubeflow (pipelineCreate Engine.airflow defAirflow1
          (pipelineCreate Engine.kubeflow defKubeflow3
            (pipelineCreate Engine.kubeflow defKubeflow1 emptyState).state).state).state) ∧
    defKubeflow1.name ∈ listedNames Engine.kubeflow (pipelineCreate Engine.airflow defAirflow1
        (pipelineCreate Engine.kubeflow defKubeflow3
          (pipelineCreate Engine.kubeflow defKubeflow1 emptyState).state).state).state ∧
    defKubeflow3.name ∈ listedNames Engine.kubeflow (pipelineCreate Engine.airflow defAirflow1
        (pipelineCreate Engine.kubeflow defKubeflow3
          (pipelineCreate Engine.kubeflow defKubeflow1 emptyState).state).state).state ∧
    defAirflow1.name ∉ listedNames Engine.kubeflow (pipelineCreate Engine.airflow defAirflow1
        (pipelineCreate Engine.kubeflow defKubeflow3
          (pipelineCreate Engine.kubeflow defKubeflow1 emptyState).state).state).state :=
  ⟨(c7_list_completeness Engine.kubeflow Engine.airflow defKubeflow1 defKubeflow3 defAirflow1
      rfl rfl rfl rfl rfl rfl (by decide) (by decide) (by decide) (by decide)).1,
   ((c7_list_completeness Engine.kubeflow Engine.airflow defKubeflow1 defKubeflow3 defAirflow1
      rfl rfl rfl rfl rfl rfl (by decide) (by decide) (by decide) (by decide)).2.1
        defKubeflow1.name).mpr (Or.inl rfl),
   ((c7_list_completeness Engine.kubeflow Engine.airflow defKubeflow1 defKubeflow3 defAirflow1
      rfl rfl rfl rfl rfl rfl (by decide) (by decide) (by decide) (by decide)).2.1
        defKubeflow3.name).mpr (Or.inr rfl),
   (c7_list_completeness Engine.kubeflow Engine.airflow defKubeflow1 defKubeflow3 defAirflow1
      rfl rfl rfl rfl rfl rfl (by decide) (by decide) (by decide) (by decide)).2.2⟩

/-- C5: for a locally recorded pipeline, infer_schema fails with the
run-required outcome when no run of it has succeeded, fails with the very
same outcome (hence the identical rendered message) when a succeeded run
produced no schema artifact, and reports a schema exactly when some run
of the pipeline succeeded with the schema artifact present. -/
theorem c5_schema_gating (e : Engine) (name : String) (st : State)
    (h : st.store.existsRecord name = true) :
    ((∀ r ∈ st.remote.runs, r.pipeline_name = name → r.status ≠ RunStatus.succeeded) →
      (inferSchema e name st).outcome = Outcome.schemaNotReady) ∧
    ((∀ r ∈ st.remote.runs, r.pipeline_name = name → r.status = RunStatus.succeeded →
        r.schema = none) →
      (inferSchema e name st).outcome = Outcome.schemaNotReady) ∧
    Outcome.schemaNotReady.message
      = "Create a run before inferring schema. If pipeline is already running, then wait for it to successfully finish." ∧
    ((∃ r ∈ st.remote.runs, r.pipeline_name = name ∧ r.status = RunStatus.succeeded ∧
        r.schema.isSome = true)
      ↔ isSchemaResult (inferSchema e name st).outcome = true) := by
  refine ⟨?_, ?_, rfl, ?_⟩
  · intro hno
    have hfind : st.remote.runs.find?
        (fun r => r.pipeline_name == name && r.status == RunStatus.succeeded && r.schema.isSome)
        = none := by
      rw [List.find?_eq_none]
      intro r hr
      simp only [Bool.and_eq_true, beq_iff_eq, not_and]
      rintro ⟨hpn, hsuc⟩
      exact absurd hsuc (hno r hr hpn)
    unfold inferSchema
    simp [h, hfind]
  · intro hno
    have hfind : st.remote.runs.find?
        (fun r => r.pipeline_name == name && r.status == RunStatus.succeeded && r.schema.isSome)
        = none := by
      rw [List.find?_eq_none]
      intro r hr
      simp only [Bool.and_eq_true, beq_iff_eq, not_and]
      rintro ⟨hpn, hsuc⟩
      rw [hno r hr hpn hsuc]
      simp
    unfold inferSchema
    simp [h, hfind]
  · cases hfind : st.remote.runs.find?
        (fun r => r.pipeline_name == name && r.status == RunStatus.succeeded && r.schema.isSome) with
    | none =>
      have hall := List.find?_eq_none.mp hfind
      constructor
      · rintro ⟨r, hr, hpn, hsuc, hsome⟩
        exact absurd (by simp [hpn, hsuc, hsome]) (hall r hr)
      · intro habs
        rw [show (inferSchema e name st).outcome = Outcome.schemaNotReady by
          unfold inferSchema; simp [h, hfind]] at habs
        simp [isSchemaResult] at habs
    | some r =>
      have hp := List.find?_some hfind
      have hmem := List.mem_of_find?_eq_some hfind
      simp only [Bool.and_eq_true, beq_iff_eq] at hp
      constructor
      · intro _
        rw [show (inferSchema e name st).outcome = Outcome.schemaResult (r.schema.getD "") by
          unfold inferSchema; simp [h, hfind]]
        rfl
      · intro _
        exact ⟨r, hmem, hp.1.1, hp.1.2, hp.2⟩

/-- C5 witness: with the v2 pipeline recorded, no runs and a schema-less
succeeded run both render the run-required message; a succeeded run with
the artifact flips the outcome to a schema report. -/
theorem c5_schema_gating_witness :
    (inferSchema Engine.kubeflow "chicago_taxi_pipeline_kubeflow_v2" schemaStateNoRun).outcome
      = Outcome.schemaNotReady ∧
    (inferSchema Engine.kubeflow "chicago_taxi_pipeline_kubeflow_v2" schemaStateNoArtifact).outcome
      = Outcome.schemaNotReady ∧
    Outcome.schemaNotReady.message
      = "Create a run before inferring schema. If pipeline is already running, then wait for it to successfully finish." ∧
    isSchemaResult (inferSchema Engine.kubeflow "chicago_taxi_pipeline_kubeflow_v2"
        schemaStateReady).outcome = true :=
  ⟨(c5_schema_gating Engine.kubeflow "chicago_taxi_pipeline_kubeflow_v2" schemaStateNoRun
      (by decide)).1 (by decide),
   (c5_schema_gating Engine.kubeflow "chicago_taxi_pipeline_kubeflow_v2" schemaStateNoArtifact
      (by decide)).2.1 (by decide),
   (c5_schema_gating Engine.kubeflow "chicago_taxi_pipeline_kubeflow_v2" schemaStateNoRun
      (by decide)).2.2.1,
   ((c5_schema_gating Engine.kubeflow "chicago_taxi_pipeline_kubeflow_v2" schemaStateReady
      (by decide)).2.2.2).mp
     ⟨⟨"run_0", "chicago_taxi_pipeline_kubeflow_v2", RunStatus.succeeded, some "schema_uri"⟩,
      by decide, rfl, rfl, rfl⟩⟩


/-! ## UTF-8 codec lemmas -/

/-- Decoding a one-byte character at the head of a byte stream. -/
theorem utf8DecodeLoop_one (b : Nat) (h : b < 128) (rest : List Nat) :
    utf8DecodeLoop (b :: rest) 0 0 0
      = (utf8DecodeLoop rest 0 0 0).map (fun cs => b :: cs) := by
  rw [utf8DecodeLoop, if_pos h]

/-- Decoding a two-byte character at the head of a byte stream. -/
theorem utf8DecodeLoop_two (c : Nat) (h1 : 128 ≤ c) (h2 : c < 2048) (rest : List Nat) :
    utf8DecodeLoop ((192 + c / 64) :: (128 + c % 64) :: rest) 0 0 0
      = (utf8DecodeLoop rest 0 0 0).map (fun cs => c :: cs) := by
  have hb0 : ¬ (192 + c / 64 < 128) := by omega
  have hb1 : ¬ (192 + c / 64 < 192) := by omega
  have hb2 : 192 + c / 64 < 224 := by omega
  have hacc : 192 + c / 64 - 192 = c / 64 := by omega
  have hc1 : 128 ≤ 128 + c % 64 ∧ 128 + c % 64 < 192 := by omega
  have hval : c / 64 * 64 + (128 + c % 64 - 128) = c := by omega
  have hok : 128 ≤ c ∧ c < 1114112 ∧ (c < 55296 ∨ 57344 ≤ c) := by omega
  rw [utf8DecodeLoop, if_neg hb0, if_neg hb1, if_pos hb2, hacc]
  rw [utf8DecodeLoop, if_pos hc1, if_pos rfl, hval, if_pos hok]

/-- Decoding a three-byte character at the head of a byte stream. -/
theorem utf8DecodeLoop_three (c : Nat) (h1 : 2048 ≤ c) (h2 : c < 65536)
    (hsur : c < 55296 ∨ 57344 ≤ c) (rest : List Nat) :
    utf8DecodeLoop ((224 + c / 4096) :: (128 + c / 64 % 64) :: (128 + c % 64) :: rest) 0 0 0
      = (utf8DecodeLoop rest 0 0 0).map (fun cs => c :: cs) := by
  have hb0 : ¬ (224 + c / 4096 < 128) := by omega
  have hb1 : ¬ (224 + c / 4096 < 192) := by omega
  have hb2 : ¬ (224 + c / 4096 < 224) := by omega
  have hb3 : 224 + c / 4096 < 240 := by omega
  have hacc : 224 + c / 4096 - 224 = c / 4096 := by omega
  have hc1 : 128 ≤ 128 + c / 64 % 64 ∧ 128 + c / 64 % 64 < 192 := by omega
  have hv1 : c / 4096 * 64 + (128 + c / 64 % 64 - 128) = c / 64 := by omega
  have hc2 : 128 ≤ 128 + c % 64 ∧ 128 + c % 64 < 192 := by omega
  have hv2 : c / 64 * 64 + (128 + c % 64 - 128) = c := by omega
  have hok : 2048 ≤ c ∧ c < 1114112 ∧ (c < 55296 ∨ 57344 ≤ c) := ⟨h1, by omega, hsur⟩
  rw [utf8DecodeLoop, if_neg hb0, if_neg hb1, if_neg hb2, if_pos hb3, hacc]
  rw [utf8DecodeLoop, if_pos hc1, if_neg (by omega : ¬ ((1 : Nat) = 0)), hv1]
  rw [utf8DecodeLoop, if_pos hc2, if_pos rfl, hv2, if_pos hok]

/-- Decoding a four-byte character at the head of a byte stream. -/
theorem utf8DecodeLoop_four (c : Nat) (h1 : 65536 ≤ c) (h2 : c < 1114112) (rest : List Nat) :
    utf8DecodeLoop ((240 + c / 262144) :: (128 + c / 4096 % 64) :: (128 + c / 64 % 64)
        :: (128 + c % 64) :: rest) 0 0 0
      = (utf8DecodeLoop rest 0 0 0).map (fun cs => c :: cs) := by
  have hb0 : ¬ (240 + c / 262144 < 128) := by omega
  have hb1 : ¬ (240 + c / 262144 < 192) := by omega
  have hb2 : ¬ (240 + c / 262144 < 224) := by omega
  have hb3 : ¬ (240 + c / 262144 < 240) := by omega
  have hb4 : 240 + c / 262144 < 248 := by omega
  have hacc : 240 + c / 262144 - 240 = c / 262144 := by omega
  have hc1 : 128 ≤ 128 + c / 4096 % 64 ∧ 128 + c / 4096 % 64 < 192 := by omega
  have hv1 : c / 262144 * 64 + (128 + c / 4096 % 64 - 128) = c / 4096 := by omega
  have hc2 : 128 ≤ 128 + c / 64 % 64 ∧ 128 + c / 64 % 64 < 192 := by omega
  have hv2 : c / 4096 * 64 + (128 + c / 64 % 64 - 128) = c / 64 := by omega
  have hc3 : 128 ≤ 128 + c % 64 ∧ 128 + c % 64 < 192 := by omega
  have hv3 : c / 64 * 64 + (128 + c % 64 - 128) = c := by omega
  have hok : 65536 ≤ c ∧ c < 1114112 ∧ (c < 55296 ∨ 57344 ≤ c) := ⟨h1, h2, by omega⟩
  rw [utf8DecodeLoop, if_neg hb0, if_neg hb1, if_neg hb2, if_neg hb3, if_pos hb4, hacc]
  rw [utf8DecodeLoop, if_pos hc1, if_neg (by omega : ¬ ((2 : Nat) = 0)), hv1]
  rw [utf8DecodeLoop, if_pos hc2, if_neg (by omega : ¬ ((1 : Nat) = 0)), hv2]
  rw [utf8DecodeLoop, if_pos hc3, if_pos rfl, hv3, if_pos hok]

/-- Decoding the UTF-8 bytes of one scalar value prepended to any byte
stream recovers the scalar and continues with the stream. -/
theorem utf8Decode_encodeChar (c : Nat) (h : isUnicodeScalar c) (rest : List Nat) :
    utf8Decode (utf8EncodeChar c ++ rest) = (utf8Decode rest).map (fun cs => c :: cs) := by
  obtain ⟨hmax, hsur⟩ := h
  show utf8DecodeLoop (utf8EncodeChar c ++ rest) 0 0 0
      = (utf8DecodeLoop rest 0 0 0).map (fun cs => c :: cs)
  by_cases h1 : c < 128
  · rw [show utf8EncodeChar c = [c] from by unfold utf8EncodeChar; rw [if_pos h1]]
    exact utf8DecodeLoop_one c h1 rest
  · by_cases h2 : c < 2048
    · rw [show utf8EncodeChar c = [192 + c / 64, 128 + c % 64] from by
        unfold utf8EncodeChar; rw [if_neg h1, if_pos h2]]
      exact utf8DecodeLoop_two c (by omega) h2 rest
    · by_cases h3 : c < 65536
      · rw [show utf8EncodeChar c = [224 + c / 4096, 128 + c / 64 % 64, 128 + c % 64] from by
          unfold utf8EncodeChar; rw [if_neg h1, if_neg h2, if_pos h3]]
        exact utf8DecodeLoop_three c (by omega) h3 hsur rest
      · rw [show utf8EncodeChar c
            = [240 + c / 262144, 128 + c / 4096 % 64, 128 + c / 64 % 64, 128 + c % 64] from by
          unfold utf8EncodeChar; rw [if_neg h1, if_neg h2, if_neg h3]]
        exact utf8DecodeLoop_four c (by omega) hmax rest

/-- C10: for every unicode string value (sequence of unicode scalar
values), StringType.decode of StringType.encode returns the string
unchanged -- encode produces the UTF-8 bytes of the string and decode
inverts them exactly. -/
theorem c10_stringtype_roundtrip (v : List Nat) (h : ∀ c ∈ v, isUnicodeScalar c) :
    StringType.decode (StringType.encode v) = some v := by
  induction v with
  | nil => rfl
  | cons c v ih =>
    have hc := h c (List.mem_cons_self c v)
    have hv := fun x hx => h x (List.mem_cons_of_mem c hx)
    show utf8Decode ((List.map utf8EncodeChar (c :: v)).flatten) = some (c :: v)
    rw [List.map_cons, List.flatten_cons, utf8Decode_encodeChar c hc]
    rw [show utf8Decode (List.map utf8EncodeChar v).flatten = some v from ih hv]
    rfl

/-- C10 witness: a string with a one-, two-, three- and four-byte
character round-trips through the codec unchanged. -/
theorem c10_stringtype_roundtrip_witness :
    StringType.decode (StringType.encode [72, 233, 8364, 128512])
      = some [72, 233, 8364, 128512] :=
  c10_stringtype_roundtrip [72, 233, 8364, 128512] (by decide)
